import Mathlib

set_option maxHeartbeats 1000000

namespace KatpoolFetcher

/-!
Shallow embedding of `src/main.go` of katpool-blocktemplate-fetcher.

The program loads configuration, derives a payout address from a private key,
constructs a node RPC client, pings a Redis bus, and then runs two concurrent
loops: a poll loop (fetch block template, cache it under a mutex, serialize it
to JSON, publish it to Redis, sleep) and a status loop (every five seconds,
read the cache and print a diagnostic).

External effects (file system, node RPC, crypto library, Redis) are modelled
as explicit environment records whose fields give each fallible call's
outcome; the control flow of `main`, `fetchKaspaAccountFromPrivateKey` and
the two loops is translated faithfully from the Go source.
-/

/-- Model of `util.Bech32Prefix` values used by the source: the mainnet
`kaspa` value and the testnet `kaspatest` value. -/
inductive Bech32Pfx where
  | kaspa
  | kaspaTest
deriving DecidableEq, Repr

/-- Opaque cryptographic collaborators of `fetchKaspaAccountFromPrivateKey`:
`hex.DecodeString`, `libkaspawallet.PublicKeyFromPrivateKey`,
`util.NewAddressPublicKey` and `util.DecodeAddress` followed by
`EncodeAddress` (collapsed into one string-valued call). `none` models the
Go call returning a non-nil error. -/
structure CryptoOps where
  hexDecode : String → Option (List Nat)
  publicKeyFromPrivateKey : List Nat → Option (List Nat)
  newAddressPublicKey : List Nat → Bech32Pfx → Option String
  decodeAddress : String → Bech32Pfx → Option String

/-- The address-prefix selection performed at the top of
`fetchKaspaAccountFromPrivateKey` (src/main.go lines 53-56): testnet prefix
exactly for the network strings "testnet-10" and "testnet-11". -/
def pfxFor (network : String) : Bech32Pfx :=
  if network = "testnet-10" ∨ network = "testnet-11" then Bech32Pfx.kaspaTest
  else Bech32Pfx.kaspa

/-- The tail of `fetchKaspaAccountFromPrivateKey` with the chosen address
prefix made explicit: hex-decode the key, derive the public key, build the
address with the given prefix, re-decode and encode it. -/
def deriveWithPfx (ops : CryptoOps) (pfx : Bech32Pfx) (privateKeyHex : String) :
    Option String :=
  match ops.hexDecode privateKeyHex with
  | none => none
  | some privateKeyBytes =>
    match ops.publicKeyFromPrivateKey privateKeyBytes with
    | none => none
    | some publicKeyBytes =>
      match ops.newAddressPublicKey publicKeyBytes pfx with
      | none => none
      | some addressPubKey => ops.decodeAddress addressPubKey pfx

/-- `fetchKaspaAccountFromPrivateKey` (src/main.go lines 52-79): choose the
bech32 prefix from the network string, then run the derivation chain. -/
def fetchKaspaAccountFromPrivateKey (ops : CryptoOps)
    (network privateKeyHex : String) : Option String :=
  let pfx := if network = "testnet-10" ∨ network = "testnet-11"
    then Bech32Pfx.kaspaTest else Bech32Pfx.kaspa
  match ops.hexDecode privateKeyHex with
  | none => none
  | some privateKeyBytes =>
    match ops.publicKeyFromPrivateKey privateKeyBytes with
    | none => none
    | some publicKeyBytes =>
      match ops.newAddressPublicKey publicKeyBytes pfx with
      | none => none
      | some addressPubKey => ops.decodeAddress addressPubKey pfx

/-- Accumulate the decimal value of a digit list; fails on the first
non-digit character. Helper for the `strconv.Atoi` model. -/
def digitsVal (acc : Nat) : List Char → Option Nat
  | [] => some acc
  | c :: cs =>
    if c.isDigit then digitsVal (acc * 10 + (c.toNat - 48)) cs else none

/-- Model of Go's `strconv.Atoi`: an optional sign followed by at least one
decimal digit and nothing else; anything else is an error (`none`). The
64-bit range check of the real function is not modelled; it is irrelevant to
the claims, which concern non-numeric and signed inputs. -/
def goAtoi (s : String) : Option Int :=
  match s.data with
  | [] => none
  | '+' :: [] => none
  | '-' :: [] => none
  | '+' :: c :: cs => (digitsVal 0 (c :: cs)).map Int.ofNat
  | '-' :: c :: cs => (digitsVal 0 (c :: cs)).map (fun n => -(Int.ofNat n))
  | cs => (digitsVal 0 cs).map Int.ofNat

/-- `BridgeConfig` (src/main.go lines 30-36); field names follow the Go
struct, whose JSON keys are node, network, block_wait_time_seconds,
redis_address, redis_channel. -/
structure BridgeConfig where
  RPCServer : List String
  Network : String
  BlockWaitTimeSec : String
  RedisAddress : String
  RedisChannel : String
deriving DecidableEq, Repr

/-- Outcomes of the fallible external calls made during startup, in program
order: `godotenv.Load`, the `TREASURY_PRIVATE_KEY` variable, `os.Open` of
config.json, the JSON decode, `fetchKaspaAccountFromPrivateKey` (abstracted
to its outcome as a function of network and key), `rpcclient.NewRPCClient`,
and `rdb.Ping`. A `some msg` in an error field models the Go call returning
that error. -/
structure StartupEnv where
  dotenvErr : Option String
  privateKey : String
  openConfigErr : Option String
  decodeResult : Except String BridgeConfig
  deriveAddress : String → String → Except String String
  rpcClientErr : Option String
  redisPingErr : Option String

/-- Network connections attempted during startup: the node RPC client
construction and the Redis ping. -/
inductive NetAction where
  | rpcConnect : String → NetAction
  | redisPing : String → NetAction
deriving DecidableEq, Repr

/-- How `main` leaves its startup phase. `exitNonzero` models `log.Fatalf`
(process exit status 1); `exitZero` models `fmt.Printf`/`fmt.Println`
followed by `return` from `main` (process exit status 0); `panicked` models
a Go runtime panic (exit status 2); `started` carries the config, the parsed
wait-time and the derived address into the steady-state loops. -/
inductive StartupResult where
  | exitNonzero : String → StartupResult
  | exitZero : String → StartupResult
  | panicked : String → StartupResult
  | started : BridgeConfig → Int → String → StartupResult
deriving DecidableEq, Repr

/-- The startup sequence of `main` (src/main.go lines 91-148), returning the
outcome together with the list of network connections attempted. The order
mirrors the source: load .env (log.Fatalf on error), open config.json
(print + return on error), decode JSON (print + return on error), derive the
payout address (log.Fatalf on error), parse the wait time with Atoi
(print + return on error), index `config.RPCServer[0]` (a runtime panic when
the list is empty), construct the RPC client (log.Fatalf on error), ping
Redis (log.Fatalf on error). -/
def startup (env : StartupEnv) : StartupResult × List NetAction :=
  match env.dotenvErr with
  | some e => (StartupResult.exitNonzero ("Error loading .env file: " ++ e), [])
  | none =>
    match env.openConfigErr with
    | some e => (StartupResult.exitZero ("Error opening file: " ++ e), [])
    | none =>
      match env.decodeResult with
      | Except.error e => (StartupResult.exitZero ("Error decoding JSON: " ++ e), [])
      | Except.ok config =>
        match env.deriveAddress config.Network env.privateKey with
        | Except.error e =>
          (StartupResult.exitNonzero
            ("failed to retrieve address from private key : " ++ e), [])
        | Except.ok address =>
          match goAtoi config.BlockWaitTimeSec with
          | none => (StartupResult.exitZero "Error: Invalid BlockWaitTimeSec", [])
          | some num =>
            match config.RPCServer[0]? with
            | none =>
              (StartupResult.panicked
                "runtime error: index out of range [0] with length 0", [])
            | some rpcAddr =>
              match env.rpcClientErr with
              | some e =>
                (StartupResult.exitNonzero ("failed to initialize Kaspa API: " ++ e),
                  [NetAction.rpcConnect rpcAddr])
              | none =>
                match env.redisPingErr with
                | some e =>
                  (StartupResult.exitNonzero ("could not connect to Redis: " ++ e),
                    [NetAction.rpcConnect rpcAddr,
                     NetAction.redisPing config.RedisAddress])
                | none =>
                  (StartupResult.started config num address,
                    [NetAction.rpcConnect rpcAddr,
                     NetAction.redisPing config.RedisAddress])

/-- The process exit status implied by a startup outcome: `log.Fatalf` exits
with status 1, `return` from `main` exits with status 0, a runtime panic
exits with status 2; `started` does not exit. -/
def exitCode : StartupResult → Option Nat
  | StartupResult.exitNonzero _ => some 1
  | StartupResult.exitZero _ => some 0
  | StartupResult.panicked _ => some 2
  | StartupResult.started _ _ _ => none

/-- Outcome of one `ksApi.GetBlockTemplate(address)` call: the wrapped error
or the fetched template. `T` is the opaque template type
(`appmessage.GetBlockTemplateResponseMessage`). -/
inductive FetchResult (T : Type) where
  | fetchErr : String → FetchResult T
  | fetchOk : T → FetchResult T
deriving DecidableEq, Repr

/-- The external outcomes one iteration of the poll loop can observe: the
fetch result and, when a publish is attempted, whether `rdb.Publish`
returns an error. -/
structure CycleEnv (T : Type) where
  fetch : FetchResult T
  publishErr : Option String
deriving DecidableEq, Repr

/-- Observable events of one poll-loop iteration, in program order: the
cache write under the mutex, a publish attempt (successful or failed) of the
serialized bytes `B`, and a `time.Sleep` of the configured number of
seconds. -/
inductive LoopEvent (T B : Type) where
  | cacheWrite : T → LoopEvent T B
  | publishOk : B → LoopEvent T B
  | publishFail : B → LoopEvent T B
  | sleep : Nat → LoopEvent T B
deriving DecidableEq, Repr

/-- One iteration of the poll loop goroutine (src/main.go lines 155-184),
given the JSON serializer `ser` (`json.Marshal`), the configured wait time,
the current cached template and the cycle's external outcomes. Returns the
new cache value and the iteration's events. Mirrors the source exactly:
a fetch error logs, sleeps and continues; on success the cache is written
first, then the template is serialized — a serialization error continues
WITHOUT sleeping — then the publish is attempted and the iteration sleeps
whether or not the publish succeeded. -/
def pollCycle {T B : Type} (ser : T → Except String B) (wait : Nat)
    (cache : Option T) (env : CycleEnv T) : Option T × List (LoopEvent T B) :=
  match env.fetch with
  | FetchResult.fetchErr _ => (cache, [LoopEvent.sleep wait])
  | FetchResult.fetchOk t =>
    match ser t with
    | Except.error _ => (some t, [LoopEvent.cacheWrite t])
    | Except.ok b =>
      match env.publishErr with
      | some _ =>
        (some t, [LoopEvent.cacheWrite t, LoopEvent.publishFail b,
          LoopEvent.sleep wait])
      | none =>
        (some t, [LoopEvent.cacheWrite t, LoopEvent.publishOk b,
          LoopEvent.sleep wait])

/-- A finite prefix of the infinite poll loop: run one cycle per environment
entry, threading the cache and concatenating the events. -/
def pollRun {T B : Type} (ser : T → Except String B) (wait : Nat)
    (cache : Option T) : List (CycleEnv T) → Option T × List (LoopEvent T B)
  | [] => (cache, [])
  | env :: rest =>
    let step := pollCycle ser wait cache env
    let next := pollRun ser wait step.1 rest
    (next.1, step.2 ++ next.2)

/-- Specification-side function: the template of the most recent successful
fetch in the schedule, or the initial cache value if none succeeded. -/
def lastFetchSuccess {T : Type} (cache : Option T) :
    List (CycleEnv T) → Option T
  | [] => cache
  | env :: rest =>
    match env.fetch with
    | FetchResult.fetchOk t => lastFetchSuccess (some t) rest
    | FetchResult.fetchErr _ => lastFetchSuccess cache rest

/-- The payloads successfully delivered to the bus, in order, read off an
event trace. -/
def publishedOk {T B : Type} : List (LoopEvent T B) → List B
  | [] => []
  | LoopEvent.publishOk b :: rest => b :: publishedOk rest
  | LoopEvent.cacheWrite _ :: rest => publishedOk rest
  | LoopEvent.publishFail _ :: rest => publishedOk rest
  | LoopEvent.sleep _ :: rest => publishedOk rest

/-- One tick of the status loop in `main` (src/main.go lines 188-222): read
the cache under the mutex and return it unchanged together with the lines
printed. The populated-cache diagnostic block is commented out in the
source, so a populated cache prints nothing; an empty cache prints the
"No block template fetched yet." line. The tick touches neither the node
client nor the bus. -/
def statusTick {T : Type} (cache : Option T) : Option T × List String :=
  match cache with
  | some t => (some t, [])
  | none => (none, ["No block template fetched yet."])

/-- A cycle whose fetch fails leaves the cache untouched and only sleeps. -/
theorem pollCycle_err {T B : Type} (ser : T → Except String B) (wait : Nat)
    (cache : Option T) (env : CycleEnv T) (m : String)
    (h : env.fetch = FetchResult.fetchErr m) :
    pollCycle (B := B) ser wait cache env = (cache, [LoopEvent.sleep wait]) := by
  unfold pollCycle
  rw [h]

/-- A cycle whose fetch succeeds always ends with the fetched template in
the cache, whatever the serializer and the bus do. -/
theorem pollCycle_fst_ok {T B : Type} (ser : T → Except String B) (wait : Nat)
    (cache : Option T) (env : CycleEnv T) (t : T)
    (h : env.fetch = FetchResult.fetchOk t) :
    (pollCycle ser wait cache env).1 = some t := by
  rcases hs : ser t with e | b
  · simp [pollCycle, h, hs]
  · rcases hp : env.publishErr with _ | p <;> simp [pollCycle, h, hs, hp]

/-- The cache after any finite run of the poll loop equals the most recent
successfully fetched template (or the initial cache if none succeeded). -/
theorem pollRun_fst {T B : Type} (ser : T → Except String B) (wait : Nat) :
    ∀ (envs : List (CycleEnv T)) (cache : Option T),
      (pollRun (B := B) ser wait cache envs).1 = lastFetchSuccess cache envs := by
  intro envs
  induction envs with
  | nil => intro cache; rfl
  | cons env rest ih =>
    intro cache
    cases hf : env.fetch with
    | fetchErr m =>
      simp [pollRun, lastFetchSuccess, hf,
        pollCycle_err (B := B) ser wait cache env m hf, ih]
    | fetchOk t =>
      have h1 := pollCycle_fst_ok (B := B) ser wait cache env t hf
      simp [pollRun, lastFetchSuccess, hf, h1, ih]

/-- C1: starting from an empty cache, after any finite schedule of poll
cycles the cached template equals the template of the most recent successful
fetch (so it is empty exactly when no fetch has succeeded yet), and a cycle
whose fetch fails never changes the cached value. -/
theorem cache_reflects_last_success {T B : Type} (ser : T → Except String B)
    (wait : Nat) (envs : List (CycleEnv T)) :
    (pollRun (B := B) ser wait (none : Option T) envs).1 =
      lastFetchSuccess none envs ∧
    ∀ (cache : Option T) (env : CycleEnv T) (m : String),
      env.fetch = FetchResult.fetchErr m →
      (pollCycle (B := B) ser wait cache env).1 = cache :=
  ⟨pollRun_fst ser wait envs none,
   fun cache env m h => by rw [pollCycle_err ser wait cache env m h]⟩

/-- Witness for C1 at a concrete three-cycle schedule: fail, fetch 5, fail;
the cache ends at 5, and a failing cycle from cache 3 keeps 3. -/
theorem cache_reflects_last_success_witness :
    (pollRun (fun n : Nat => (Except.ok n : Except String Nat)) 1
        (none : Option Nat)
        [⟨FetchResult.fetchErr "down", none⟩, ⟨FetchResult.fetchOk 5, none⟩,
         ⟨FetchResult.fetchErr "down again", some "busted"⟩]).1 = some 5 ∧
    (pollCycle (fun n : Nat => (Except.ok n : Except String Nat)) 1
        (some 3) ⟨FetchResult.fetchErr "down", none⟩).1 = some 3 := by
  have h := cache_reflects_last_success
    (fun n : Nat => (Except.ok n : Except String Nat)) 1
    [⟨FetchResult.fetchErr "down", none⟩, ⟨FetchResult.fetchOk 5, none⟩,
     ⟨FetchResult.fetchErr "down again", some "busted"⟩]
  refine ⟨?_, h.2 (some 3) ⟨FetchResult.fetchErr "down", none⟩ "down" rfl⟩
  rw [h.1]
  rfl

/-- C2: in every cycle whose fetch succeeds, the fetched template is in the
cache at the end of the cycle regardless of serialization or publish
failures, and the cache write is the first event of the cycle, strictly
before any publish attempt. -/
theorem cache_update_precedes_publish {T B : Type} (ser : T → Except String B)
    (wait : Nat) (cache : Option T) (env : CycleEnv T) (t : T)
    (h : env.fetch = FetchResult.fetchOk t) :
    (pollCycle ser wait cache env).1 = some t ∧
    ∃ rest, (pollCycle ser wait cache env).2 = LoopEvent.cacheWrite t :: rest := by
  rcases hs : ser t with e | b
  · exact ⟨by simp [pollCycle, h, hs], [], by simp [pollCycle, h, hs]⟩
  · rcases hp : env.publishErr with _ | p
    · exact ⟨by simp [pollCycle, h, hs, hp],
        [LoopEvent.publishOk b, LoopEvent.sleep wait],
        by simp [pollCycle, h, hs, hp]⟩
    · exact ⟨by simp [pollCycle, h, hs, hp],
        [LoopEvent.publishFail b, LoopEvent.sleep wait],
        by simp [pollCycle, h, hs, hp]⟩

/-- Witness for C2 at a concrete cycle whose publish fails: the cache still
holds the fetched template 7 and the cache write comes first. -/
theorem cache_update_precedes_publish_witness :
    (pollCycle (fun n : Nat => (Except.ok (n + 1) : Except String Nat)) 2
        (none : Option Nat) ⟨FetchResult.fetchOk 7, some "bus down"⟩).1 = some 7 ∧
    ∃ rest, (pollCycle (fun n : Nat => (Except.ok (n + 1) : Except String Nat)) 2
        (none : Option Nat) ⟨FetchResult.fetchOk 7, some "bus down"⟩).2 =
      LoopEvent.cacheWrite 7 :: rest :=
  cache_update_precedes_publish _ 2 none ⟨FetchResult.fetchOk 7, some "bus down"⟩ 7 rfl

/-- C3: if the fetch fails in each of the first N cycles and then succeeds,
the run performs exactly N failed cycles, each consisting of a single sleep
of the configured wait interval, before the successful template reaches the
cache; the statement holds for every N and every failing schedule, with the
same fixed interval each time — no backoff and no attempt cutoff. -/
theorem retry_liveness {T B : Type} (ser : T → Except String B) (wait : Nat)
    (fails : List (CycleEnv T)) (succ : CycleEnv T) (t : T)
    (hf : ∀ e ∈ fails, ∃ m, e.fetch = FetchResult.fetchErr m)
    (hs : succ.fetch = FetchResult.fetchOk t) :
    (pollRun (B := B) ser wait none (fails ++ [succ])).1 = some t ∧
    (pollRun (B := B) ser wait none (fails ++ [succ])).2 =
      List.replicate fails.length (LoopEvent.sleep wait) ++
        (pollCycle (B := B) ser wait (none : Option T) succ).2 := by
  revert hf
  induction fails with
  | nil =>
    intro hf
    have h1 := pollCycle_fst_ok (B := B) ser wait none succ t hs
    simp [pollRun, h1]
  | cons e fs ih =>
    intro hf
    obtain ⟨m, hm⟩ := hf e (List.mem_cons_self e fs)
    have ih2 := ih fun x hx => hf x (List.mem_cons_of_mem e hx)
    simp [pollRun, pollCycle_err (B := B) ser wait none e m hm,
      List.replicate_succ, ih2.1, ih2.2]

/-- Witness for C3 with two concrete failing cycles then a success: the
cache ends at 9 and the trace is two sleeps of the interval followed by the
successful cycle's events. -/
theorem retry_liveness_witness :
    (pollRun (fun n : Nat => (Except.ok n : Except String Nat)) 4
        (none : Option Nat)
        ([⟨FetchResult.fetchErr "a", none⟩, ⟨FetchResult.fetchErr "b", none⟩] ++
          [⟨FetchResult.fetchOk 9, none⟩])).1 = some 9 ∧
    (pollRun (fun n : Nat => (Except.ok n : Except String Nat)) 4
        (none : Option Nat)
        ([⟨FetchResult.fetchErr "a", none⟩, ⟨FetchResult.fetchErr "b", none⟩] ++
          [⟨FetchResult.fetchOk 9, none⟩])).2 =
      List.replicate 2 (LoopEvent.sleep 4) ++
        (pollCycle (fun n : Nat => (Except.ok n : Except String Nat)) 4
          (none : Option Nat) ⟨FetchResult.fetchOk 9, none⟩).2 := by
  have h := retry_liveness (fun n : Nat => (Except.ok n : Except String Nat)) 4
    [⟨FetchResult.fetchErr "a", none⟩, ⟨FetchResult.fetchErr "b", none⟩]
    ⟨FetchResult.fetchOk 9, none⟩ 9 ?_ rfl
  · exact h
  · intro e he
    simp only [List.mem_cons, List.not_mem_nil, or_false] at he
    rcases he with rfl | rfl
    · exact ⟨"a", rfl⟩
    · exact ⟨"b", rfl⟩

/-- C4 counterexample: a concrete cycle whose fetch succeeds but whose
serialization fails produces only the cache write — it contains no sleep of
the configured interval (3), so not every cycle ends with the pause. -/
theorem serialize_failure_skips_sleep :
    (pollCycle (fun _ : Nat => (Except.error "marshal failure" : Except String Nat))
        3 (none : Option Nat) ⟨FetchResult.fetchOk 1, none⟩).2 =
      [LoopEvent.cacheWrite 1] ∧
    LoopEvent.sleep 3 ∉
      (pollCycle (fun _ : Nat => (Except.error "marshal failure" : Except String Nat))
        3 (none : Option Nat) ⟨FetchResult.fetchOk 1, none⟩).2 := by
  constructor
  · rfl
  · decide

/-- C4 (amended): every poll-loop cycle ends with a sleep of the configured
wait interval — whether the fetch succeeded, the fetch failed, or the
publish failed — EXCEPT a cycle whose serialization fails, which continues
immediately to the next fetch with no sleep, its trace being just the cache
write. -/
theorem cycle_sleep_discipline {T B : Type} (ser : T → Except String B)
    (wait : Nat) (cache : Option T) (env : CycleEnv T) :
    (pollCycle ser wait cache env).2.getLast? = some (LoopEvent.sleep wait) ∨
    ∃ t e, env.fetch = FetchResult.fetchOk t ∧ ser t = Except.error e ∧
      (pollCycle ser wait cache env).2 = [LoopEvent.cacheWrite t] := by
  rcases hf : env.fetch with m | t
  · left
    simp [pollCycle, hf]
  · rcases hs : ser t with e | b
    · right
      exact ⟨t, e, rfl, hs, by simp [pollCycle, hf, hs]⟩
    · left
      rcases hp : env.publishErr with _ | p <;> simp [pollCycle, hf, hs, hp]

/-- C7: with a node returning t1 then t2 and both cycles publishing without
error, after the two cycles the cache holds t2 and the successfully
published payloads are the serializations of t1 then t2, in order. -/
theorem two_cycle_end_to_end {T B : Type} (ser : T → Except String B)
    (wait : Nat) (t1 t2 : T) (b1 b2 : B)
    (h1 : ser t1 = Except.ok b1) (h2 : ser t2 = Except.ok b2) :
    (pollRun (B := B) ser wait (none : Option T)
      [⟨FetchResult.fetchOk t1, none⟩, ⟨FetchResult.fetchOk t2, none⟩]).1 =
        some t2 ∧
    publishedOk ((pollRun (B := B) ser wait (none : Option T)
      [⟨FetchResult.fetchOk t1, none⟩, ⟨FetchResult.fetchOk t2, none⟩]).2) =
        [b1, b2] := by
  constructor <;> simp [pollRun, pollCycle, h1, h2, publishedOk]

/-- Witness for C7 at the concrete serializer n ↦ n * 10 with templates 1
and 2: the cache ends at 2 and the bus recorded 10 then 20. -/
theorem two_cycle_end_to_end_witness :
    (pollRun (fun n : Nat => (Except.ok (n * 10) : Except String Nat)) 1
      (none : Option Nat)
      [⟨FetchResult.fetchOk 1, none⟩, ⟨FetchResult.fetchOk 2, none⟩]).1 =
        some 2 ∧
    publishedOk ((pollRun (fun n : Nat => (Except.ok (n * 10) : Except String Nat)) 1
      (none : Option Nat)
      [⟨FetchResult.fetchOk 1, none⟩, ⟨FetchResult.fetchOk 2, none⟩]).2) =
        [10, 20] :=
  two_cycle_end_to_end _ 1 1 2 10 20 rfl rfl

/-- C8 counterexample: a tick of the status loop with a populated cache
emits no output at all — the key-fields diagnostic is commented out in the
source — contradicting the claim that a formatted diagnostic is emitted. -/
theorem populated_tick_emits_nothing :
    (statusTick (some (0 : Nat))).2 = [] := rfl

/-- C8 (amended): every status tick leaves the cache unchanged (and performs
no fetch and no publish, as `statusTick` consults neither the node client
nor the bus); when the cache is empty it emits the "no template yet"
diagnostic, and when the cache is populated it emits nothing, the key-fields
diagnostic being disabled in the source. -/
theorem status_tick_behavior {T : Type} (cache : Option T) :
    (statusTick cache).1 = cache ∧
    (statusTick cache).2 =
      (if cache.isSome then [] else ["No block template fetched yet."]) := by
  cases cache <;> exact ⟨rfl, rfl⟩

/-- C5 counterexample: a missing config file — a fatal startup error named
by the claim — terminates the process with exit status ZERO (fmt.Printf
followed by return from main), not a non-zero status. -/
theorem config_open_error_exit_zero :
    (startup ⟨none, "", some "open ./config.json: no such file or directory",
        Except.error "", fun _ _ => Except.error "", none, none⟩).1 =
      StartupResult.exitZero
        "Error opening file: open ./config.json: no such file or directory" ∧
    exitCode (startup ⟨none, "", some "open ./config.json: no such file or directory",
        Except.error "", fun _ _ => Except.error "", none, none⟩).1 = some 0 :=
  ⟨rfl, rfl⟩

/-- C5 (amended): every fatal startup error terminates the process
immediately with a descriptive message, but the exit status differs by
error: a failing .env load, a failed address derivation, a failed RPC-client
construction and an unreachable Redis bus exit with status 1 (log.Fatalf),
while a missing or unreadable config file, a JSON decode failure and an
invalid wait-time value exit with status 0 (a printed message followed by
return from main). -/
theorem startup_fatal_error_behavior (env : StartupEnv) :
    (∀ e, env.dotenvErr = some e →
      startup env = (StartupResult.exitNonzero ("Error loading .env file: " ++ e), []) ∧
      exitCode (startup env).1 = some 1) ∧
    (∀ e, env.dotenvErr = none → env.openConfigErr = some e →
      startup env = (StartupResult.exitZero ("Error opening file: " ++ e), []) ∧
      exitCode (startup env).1 = some 0) ∧
    (∀ e, env.dotenvErr = none → env.openConfigErr = none →
      env.decodeResult = Except.error e →
      startup env = (StartupResult.exitZero ("Error decoding JSON: " ++ e), []) ∧
      exitCode (startup env).1 = some 0) ∧
    (∀ cfg e, env.dotenvErr = none → env.openConfigErr = none →
      env.decodeResult = Except.ok cfg →
      env.deriveAddress cfg.Network env.privateKey = Except.error e →
      startup env = (StartupResult.exitNonzero
        ("failed to retrieve address from private key : " ++ e), []) ∧
      exitCode (startup env).1 = some 1) ∧
    (∀ cfg a, env.dotenvErr = none → env.openConfigErr = none →
      env.decodeResult = Except.ok cfg →
      env.deriveAddress cfg.Network env.privateKey = Except.ok a →
      goAtoi cfg.BlockWaitTimeSec = none →
      startup env = (StartupResult.exitZero "Error: Invalid BlockWaitTimeSec", []) ∧
      exitCode (startup env).1 = some 0) ∧
    (∀ cfg a n r e, env.dotenvErr = none → env.openConfigErr = none →
      env.decodeResult = Except.ok cfg →
      env.deriveAddress cfg.Network env.privateKey = Except.ok a →
      goAtoi cfg.BlockWaitTimeSec = some n →
      cfg.RPCServer[0]? = some r →
      env.rpcClientErr = some e →
      startup env = (StartupResult.exitNonzero
        ("failed to initialize Kaspa API: " ++ e), [NetAction.rpcConnect r]) ∧
      exitCode (startup env).1 = some 1) ∧
    (∀ cfg a n r e, env.dotenvErr = none → env.openConfigErr = none →
      env.decodeResult = Except.ok cfg →
      env.deriveAddress cfg.Network env.privateKey = Except.ok a →
      goAtoi cfg.BlockWaitTimeSec = some n →
      cfg.RPCServer[0]? = some r →
      env.rpcClientErr = none → env.redisPingErr = some e →
      startup env = (StartupResult.exitNonzero ("could not connect to Redis: " ++ e),
        [NetAction.rpcConnect r, NetAction.redisPing cfg.RedisAddress]) ∧
      exitCode (startup env).1 = some 1) := by
  refine ⟨?_, ?_, ?_, ?_, ?_, ?_, ?_⟩
  · intro e h1
    constructor <;> simp [startup, exitCode, h1]
  · intro e h1 h2
    constructor <;> simp [startup, exitCode, h1, h2]
  · intro e h1 h2 h3
    constructor <;> simp [startup, exitCode, h1, h2, h3]
  · intro cfg e h1 h2 h3 h4
    constructor <;> simp [startup, exitCode, h1, h2, h3, h4]
  · intro cfg a h1 h2 h3 h4 h5
    constructor <;> simp [startup, exitCode, h1, h2, h3, h4, h5]
  · intro cfg a n r e h1 h2 h3 h4 h5 h6 h7
    constructor <;> simp [startup, exitCode, h1, h2, h3, h4, h5, h6, h7]
  · intro cfg a n r e h1 h2 h3 h4 h5 h6 h7 h8
    constructor <;> simp [startup, exitCode, h1, h2, h3, h4, h5, h6, h7, h8]

/-- Witness for C5 (amended) at two concrete environments: a missing config
file exits with status 0, and an unreachable Redis bus exits with
status 1. -/
theorem startup_fatal_error_behavior_witness :
    startup ⟨none, "k", some "boom", Except.error "",
        fun _ _ => Except.error "", none, none⟩ =
      (StartupResult.exitZero "Error opening file: boom", []) ∧
    startup ⟨none, "k", none, Except.ok ⟨["n"], "mainnet", "5", "r", "c"⟩,
        fun _ _ => Except.ok "addr", none, some "conn refused"⟩ =
      (StartupResult.exitNonzero "could not connect to Redis: conn refused",
        [NetAction.rpcConnect "n", NetAction.redisPing "r"]) := by
  constructor
  · exact ((startup_fatal_error_behavior _).2.1 "boom" rfl rfl).1
  · exact ((startup_fatal_error_behavior _).2.2.2.2.2.2
      ⟨["n"], "mainnet", "5", "r", "c"⟩ "addr" 5 "n" "conn refused"
      rfl rfl rfl rfl (by decide) rfl rfl rfl).1

/-- C6 counterexample: the non-positive wait-time string "-5" is accepted by
startup — Atoi parses it, the RPC client is constructed and Redis is pinged,
and the loops start with a negative wait — contradicting the claim that
only positive integers are accepted. -/
theorem nonpositive_wait_time_accepted :
    startup ⟨none, "k", none,
        Except.ok ⟨["node:16110"], "mainnet", "-5", "redis:6379", "chan"⟩,
        fun _ _ => Except.ok "addr", none, none⟩ =
      (StartupResult.started ⟨["node:16110"], "mainnet", "-5", "redis:6379", "chan"⟩
        (-5) "addr",
        [NetAction.rpcConnect "node:16110", NetAction.redisPing "redis:6379"]) := by
  decide

/-- C6 (amended): startup accepts block_wait_time_seconds exactly when it
parses as an integer under Atoi — any sign, zero included, positivity is
NOT checked — and for every value that fails integer parsing startup
terminates (with exit status zero) before any network connection is
attempted: the attempted-connection trace is empty. -/
theorem wait_time_validation (env : StartupEnv) (cfg : BridgeConfig) (a : String)
    (h1 : env.dotenvErr = none) (h2 : env.openConfigErr = none)
    (h3 : env.decodeResult = Except.ok cfg)
    (h4 : env.deriveAddress cfg.Network env.privateKey = Except.ok a) :
    (goAtoi cfg.BlockWaitTimeSec = none →
      startup env = (StartupResult.exitZero "Error: Invalid BlockWaitTimeSec", [])) ∧
    (∀ n r, goAtoi cfg.BlockWaitTimeSec = some n →
      cfg.RPCServer[0]? = some r →
      env.rpcClientErr = none → env.redisPingErr = none →
      startup env = (StartupResult.started cfg n a,
        [NetAction.rpcConnect r, NetAction.redisPing cfg.RedisAddress])) := by
  constructor
  · intro h5
    simp [startup, h1, h2, h3, h4, h5]
  · intro n r h5 h6 h7 h8
    simp [startup, h1, h2, h3, h4, h5, h6, h7, h8]

/-- Witness for C6 (amended): "abc" fails Atoi and startup stops with no
network action even though both network calls would fail if reached, while
"-7" is accepted and startup reaches the steady state. -/
theorem wait_time_validation_witness :
    goAtoi "abc" = none ∧
    startup ⟨none, "k", none, Except.ok ⟨["n"], "net", "abc", "r", "c"⟩,
        fun _ _ => Except.ok "a", some "never reached", some "never reached"⟩ =
      (StartupResult.exitZero "Error: Invalid BlockWaitTimeSec", []) ∧
    startup ⟨none, "k", none, Except.ok ⟨["n"], "net", "-7", "r", "c"⟩,
        fun _ _ => Except.ok "a", none, none⟩ =
      (StartupResult.started ⟨["n"], "net", "-7", "r", "c"⟩ (-7) "a",
        [NetAction.rpcConnect "n", NetAction.redisPing "r"]) := by
  refine ⟨by decide, ?_, ?_⟩
  · exact (wait_time_validation _ ⟨["n"], "net", "abc", "r", "c"⟩ "a"
      rfl rfl rfl rfl).1 (by decide)
  · exact (wait_time_validation _ ⟨["n"], "net", "-7", "r", "c"⟩ "a"
      rfl rfl rfl rfl).2 (-7) "n" (by decide) rfl rfl rfl

/-- C9: when every startup step up to the wait-time parse succeeds but the
configured node endpoint list is empty, startup does not reach a descriptive
fatal error — neither an exit-zero nor an exit-nonzero message — but panics
with the out-of-bounds access of config.RPCServer[0]; and that first-entry
access is safe exactly when the list is non-empty. -/
theorem empty_node_list_panics (env : StartupEnv) (cfg : BridgeConfig)
    (a : String) (n : Int)
    (h1 : env.dotenvErr = none) (h2 : env.openConfigErr = none)
    (h3 : env.decodeResult = Except.ok cfg)
    (h4 : env.deriveAddress cfg.Network env.privateKey = Except.ok a)
    (h5 : goAtoi cfg.BlockWaitTimeSec = some n) :
    (cfg.RPCServer = [] →
      startup env = (StartupResult.panicked
        "runtime error: index out of range [0] with length 0", []) ∧
      ∀ m, (startup env).1 ≠ StartupResult.exitZero m ∧
        (startup env).1 ≠ StartupResult.exitNonzero m) ∧
    ((cfg.RPCServer[0]?).isSome ↔ cfg.RPCServer ≠ []) := by
  constructor
  · intro hempty
    have hidx : cfg.RPCServer[0]? = none := by simp [hempty]
    have hres : startup env = (StartupResult.panicked
        "runtime error: index out of range [0] with length 0", []) := by
      simp [startup, h1, h2, h3, h4, h5, hidx]
    refine ⟨hres, fun m => ?_⟩
    rw [hres]
    exact ⟨fun h => StartupResult.noConfusion h, fun h => StartupResult.noConfusion h⟩
  · cases cfg.RPCServer <;> simp

/-- Witness for C9 at a concrete environment with an empty node list: the
startup attempt panics with the out-of-bounds message and attempts no
network connection. -/
theorem empty_node_list_panics_witness :
    startup ⟨none, "k", none, Except.ok ⟨[], "net", "3", "r", "c"⟩,
        fun _ _ => Except.ok "a", none, none⟩ =
      (StartupResult.panicked
        "runtime error: index out of range [0] with length 0", []) :=
  ((empty_node_list_panics _ ⟨[], "net", "3", "r", "c"⟩ "a" 3
    rfl rfl rfl rfl (by decide)).1 rfl).1

/-- C10: the address derivation uses the testnet bech32 value exactly when
the network string is "testnet-10" or "testnet-11", and the mainnet kaspa
value for every other network string; the whole of
fetchKaspaAccountFromPrivateKey runs its derivation chain with that chosen
value. -/
theorem address_pfx_network_rule (ops : CryptoOps)
    (network privateKeyHex : String) :
    fetchKaspaAccountFromPrivateKey ops network privateKeyHex =
      deriveWithPfx ops (pfxFor network) privateKeyHex ∧
    (pfxFor network = Bech32Pfx.kaspaTest ↔
      (network = "testnet-10" ∨ network = "testnet-11")) ∧
    (pfxFor network = Bech32Pfx.kaspa ↔
      ¬(network = "testnet-10" ∨ network = "testnet-11")) := by
  refine ⟨rfl, ?_, ?_⟩ <;> unfold pfxFor <;>
    by_cases h : network = "testnet-10" ∨ network = "testnet-11" <;> simp [h]

end KatpoolFetcher
